import Mathlib

/-!
Verification of the record-parsing, timestamp-resolution, temperature-extraction
and serial-formatting logic of the bialystok_temp repository (two Python source
files: `bialystok_temp.py` and `bialystok_temp_Version2_1.py`).

The embedding is shallow: decoded JSON payloads become an inductive `JVal`
(Python numbers split into `int` and `float`; floats are modelled as exact
rationals), Python `datetime` objects become a six-field `Datetime` record,
and every repository function becomes a total Lean function returning
`Option` where the Python code returns a value or `None`.

Models of external collaborators (Python builtins and the standard library)
are defined once at top level: `strptime` (the subset of directives the repo
uses: %Y %m %d %H %M %S and literal characters, with CPython `_strptime`
regex semantics and `datetime` range validation), `fromisoformat` (the
pre-3.11 extended ISO format, without fractional seconds or UTC offsets),
`pyFloat` (decimal/exponent literals accepted by `float(str)`; the textual
forms `inf`/`nan` and digit-group underscores are not modelled), `pyStr`
(`str()`; the repr of floats is rendered exactly when the rational has a
short finite decimal expansion, and container reprs are abbreviated —
every such string is unparseable as a date both in CPython and here), and
`stableSortDesc` (Python `list.sort` with `reverse=True`: a stable sort
placing larger keys first, equal keys in original order).

The repository-defined functions live in two namespaces: `V1` embeds
`src/bialystok_temp.py` and `V2` embeds `src/bialystok_temp_Version2_1.py`.
-/

set_option maxRecDepth 4000

/-- Decoded JSON value as produced by `requests.Response.json()`.  Python
distinguishes `int` and `float`; JSON `true`/`false` decode to Python `bool`,
which Python treats as a subtype of `int`. -/
inductive JVal where
  | null : JVal
  | bool : Bool → JVal
  | int : Int → JVal
  | float : ℚ → JVal
  | str : String → JVal
  | arr : List JVal → JVal
  | obj : List (String × JVal) → JVal

/-- Association-list lookup, modelling Python `dict` access on the decoded
object fields (JSON object keys are unique, so first-match lookup agrees
with `dict.__getitem__`). -/
def getField : List (String × JVal) → String → Option JVal
  | [], _ => none
  | (k, v) :: rest, key => if k = key then some v else getField rest key

/-- Field access on a record: `some v` when the key is present, `none`
otherwise.  `k in rec` in the Python code is `(rec.get k).isSome` and
`rec.get(k)` is `(rec.get k).getD JVal.null` (Python `dict.get` returns
`None` for a missing key).  Non-mapping values have no fields. -/
def JVal.get : JVal → String → Option JVal
  | .obj fs, k => getField fs k
  | _, _ => none

/-- Python truthiness (`bool(v)`) on decoded JSON values. -/
def pyTruthy : JVal → Bool
  | .null => false
  | .bool b => b
  | .int n => n != 0
  | .float q => q != 0
  | .str s => s ≠ ""
  | .arr xs => !xs.isEmpty
  | .obj fs => !fs.isEmpty

/-- Python `a or b`: the left operand when truthy, otherwise the right. -/
def pyOr (a b : JVal) : JVal := if pyTruthy a then a else b

/-- Python `isinstance(v, (int, float))`; `bool` is a subtype of `int`. -/
def isNumericJ : JVal → Bool
  | .bool _ => true
  | .int _ => true
  | .float _ => true
  | _ => false

/-- Truncation toward zero of a rational, modelling Python `int(float)`. -/
def ratTrunc (q : ℚ) : Int :=
  if 0 ≤ q then ((q.num.toNat / q.den : ℕ) : Int)
  else -(((-q).num.toNat / q.den : ℕ) : Int)

/-- Python `int(v)` on the numeric values accepted by `isinstance(v, (int, float))`. -/
def pyInt : JVal → Int
  | .bool b => if b then 1 else 0
  | .int n => n
  | .float q => ratTrunc q
  | _ => 0

/-- Naive (timezone-free) timestamp, modelling Python `datetime.datetime`;
microseconds are not modelled (no repository input carries them). -/
structure Datetime where
  year : ℕ
  month : ℕ
  day : ℕ
  hour : ℕ
  minute : ℕ
  second : ℕ
deriving DecidableEq, Repr

/-- Field-lexicographic strict comparison of timestamps, as Python compares
naive `datetime` values. -/
def Datetime.ltb (a b : Datetime) : Bool :=
  if a.year ≠ b.year then decide (a.year < b.year)
  else if a.month ≠ b.month then decide (a.month < b.month)
  else if a.day ≠ b.day then decide (a.day < b.day)
  else if a.hour ≠ b.hour then decide (a.hour < b.hour)
  else if a.minute ≠ b.minute then decide (a.minute < b.minute)
  else decide (a.second < b.second)

/-- Gregorian leap-year test, as in Python `calendar`/`datetime`. -/
def isLeap (y : ℕ) : Bool := (y % 4 = 0 && y % 100 ≠ 0) || y % 400 = 0

/-- Number of days in a month, used by the `datetime` constructor validation. -/
def daysInMonth (y m : ℕ) : ℕ :=
  if m = 2 then (if isLeap y then 29 else 28)
  else if m = 4 ∨ m = 6 ∨ m = 9 ∨ m = 11 then 30
  else 31

/-- Range validation performed by the Python `datetime` constructor
(`MINYEAR = 1`, `MAXYEAR = 9999`, calendar-valid day, 24-hour clock). -/
def validDT (t : Datetime) : Bool :=
  1 ≤ t.year && t.year ≤ 9999 && 1 ≤ t.month && t.month ≤ 12 &&
  1 ≤ t.day && t.day ≤ daysInMonth t.year t.month &&
  t.hour ≤ 23 && t.minute ≤ 59 && t.second ≤ 59

/-- Numeric value of a decimal digit character, `none` on other characters. -/
def digitVal (c : Char) : Option ℕ :=
  if c.isDigit then some (c.toNat - 48) else none

/-- Exactly four decimal digits, as CPython `_strptime` matches `%Y`. -/
def take4 : List Char → Option (ℕ × List Char)
  | a :: b :: c :: d :: rest =>
    match digitVal a, digitVal b, digitVal c, digitVal d with
    | some w, some x, some y, some z => some (((w * 10 + x) * 10 + y) * 10 + z, rest)
    | _, _, _, _ => none
  | _ => none

/-- Greedy one-or-two-digit number with per-width admissibility predicates,
matching the `_strptime` regex alternations for `%m`, `%d`, `%H`, `%M`, `%S`
(a two-digit reading is taken only when admissible, otherwise one digit). -/
def take2or1 (ok2 ok1 : ℕ → Bool) (cs : List Char) : Option (ℕ × List Char) :=
  match cs with
  | [] => none
  | a :: rest =>
    match digitVal a with
    | none => none
    | some x =>
      match rest with
      | [] => if ok1 x then some (x, []) else none
      | b :: rest2 =>
        match digitVal b with
        | none => if ok1 x then some (x, rest) else none
        | some y =>
          if ok2 (x * 10 + y) then some (x * 10 + y, rest2)
          else if ok1 x then some (x, rest) else none

/-- One `strptime` format directive; the repository formats use only these. -/
inductive Dir where
  | year : Dir
  | mon : Dir
  | day : Dir
  | hour : Dir
  | minute : Dir
  | second : Dir
  | lit : Char → Dir

/-- Run a directive list over the input characters, filling timestamp fields
into the accumulator; fails on mismatch or on unconsumed trailing input
(CPython raises `unconverted data remains`). -/
def runDirs : List Dir → List Char → Datetime → Option Datetime
  | [], [], acc => some acc
  | [], _ :: _, _ => none
  | dir :: ds, cs, acc =>
    match dir with
    | .lit c =>
      match cs with
      | c2 :: rest => if c2 = c then runDirs ds rest acc else none
      | [] => none
    | .year =>
      match take4 cs with
      | some (v, rest) => runDirs ds rest { acc with year := v }
      | none => none
    | .mon =>
      match take2or1 (fun v => 1 ≤ v && v ≤ 12) (fun v => 1 ≤ v && v ≤ 9) cs with
      | some (v, rest) => runDirs ds rest { acc with month := v }
      | none => none
    | .day =>
      match take2or1 (fun v => 1 ≤ v && v ≤ 31) (fun v => 1 ≤ v && v ≤ 9) cs with
      | some (v, rest) => runDirs ds rest { acc with day := v }
      | none => none
    | .hour =>
      match take2or1 (fun v => v ≤ 23) (fun _ => true) cs with
      | some (v, rest) => runDirs ds rest { acc with hour := v }
      | none => none
    | .minute =>
      match take2or1 (fun v => v ≤ 59) (fun _ => true) cs with
      | some (v, rest) => runDirs ds rest { acc with minute := v }
      | none => none
    | .second =>
      match take2or1 (fun v => v ≤ 59) (fun _ => true) cs with
      | some (v, rest) => runDirs ds rest { acc with second := v }
      | none => none

/-- Default field values of `strptime` (year 1900, January 1st, midnight). -/
def strptimeInit : Datetime := ⟨1900, 1, 1, 0, 0, 0⟩

/-- Python `datetime.strptime(s, fmt)` restricted to the directives the
repository uses, returning `none` where CPython raises `ValueError`. -/
def strptime (fmt : List Dir) (s : String) : Option Datetime :=
  match runDirs fmt s.data strptimeInit with
  | some t => if validDT t then some t else none
  | none => none

/-- Exactly two decimal digits, as the extended ISO format requires. -/
def take2 : List Char → Option (ℕ × List Char)
  | a :: b :: rest =>
    match digitVal a, digitVal b with
    | some x, some y => some (x * 10 + y, rest)
    | _, _ => none
  | _ => none

/-- Optional seconds suffix of an ISO time (`:SS`). -/
def isoSeconds : List Char → Option (ℕ × List Char)
  | ':' :: rest =>
    match take2 rest with
    | some (s, rest2) => some (s, rest2)
    | none => none
  | _ => none

/-- Python `datetime.fromisoformat` on the pre-3.11 extended format:
`YYYY-MM-DD` optionally followed by one separator character and
`HH:MM[:SS]`.  Fractional seconds and UTC offsets are not modelled (the
repository never compares sub-second or timezone-aware timestamps). -/
def fromisoformat (s : String) : Option Datetime :=
  match take4 s.data with
  | none => none
  | some (y, r1) =>
    match r1 with
    | '-' :: r2 =>
      match take2 r2 with
      | none => none
      | some (mo, r3) =>
        match r3 with
        | '-' :: r4 =>
          match take2 r4 with
          | none => none
          | some (d, r5) =>
            match r5 with
            | [] =>
              let t : Datetime := ⟨y, mo, d, 0, 0, 0⟩
              if validDT t then some t else none
            | _sep :: r6 =>
              match take2 r6 with
              | none => none
              | some (h, r7) =>
                match r7 with
                | ':' :: r8 =>
                  match take2 r8 with
                  | none => none
                  | some (mi, r9) =>
                    match isoSeconds r9 with
                    | some (sec, []) =>
                      let t : Datetime := ⟨y, mo, d, h, mi, sec⟩
                      if validDT t then some t else none
                    | some (_, _ :: _) => none
                    | none =>
                      match r9 with
                      | [] =>
                        let t : Datetime := ⟨y, mo, d, h, mi, 0⟩
                        if validDT t then some t else none
                      | _ => none
                | _ => none
        | _ => none
    | _ => none

/-- Whitespace stripped by Python `float(str)`. -/
def isPyWS (c : Char) : Bool := c = ' ' || c = '\t' || c = '\n' || c = '\r'

/-- Leading decimal digits of a character list, with the remainder. -/
def takeDigits : List Char → List ℕ × List Char
  | [] => ([], [])
  | c :: rest =>
    match digitVal c with
    | some d =>
      let (ds, r) := takeDigits rest
      (d :: ds, r)
    | none => ([], c :: rest)

/-- Value of a digit list read most-significant first. -/
def digitsToNat (ds : List ℕ) : ℕ := ds.foldl (fun acc d => 10 * acc + d) 0

/-- Optional exponent suffix `e`/`E` with optional sign, returning the signed
exponent and the remainder; `none` when no exponent is present, failure is
signalled by returning the input unchanged with a marker. -/
def takeExponent : List Char → Option (Int × List Char)
  | c :: rest =>
    if c = 'e' ∨ c = 'E' then
      match rest with
      | '+' :: r2 =>
        match takeDigits r2 with
        | ([], _) => none
        | (ds, r3) => some ((digitsToNat ds : Int), r3)
      | '-' :: r2 =>
        match takeDigits r2 with
        | ([], _) => none
        | (ds, r3) => some (-(digitsToNat ds : Int), r3)
      | r2 =>
        match takeDigits r2 with
        | ([], _) => none
        | (ds, r3) => some ((digitsToNat ds : Int), r3)
    else none
  | [] => none

/-- Mantissa and exponent to an exact rational: `mant * 10 ^ exp`. -/
def applyExp (mant : ℚ) (exp : Int) : ℚ :=
  if 0 ≤ exp then mant * (10 : ℚ) ^ exp.toNat else mant / (10 : ℚ) ^ (-exp).toNat

/-- Python `float(str)` on plain decimal and exponent literals: optional
surrounding whitespace, optional sign, then digits with an optional decimal
point (at least one digit on one side of the point), then an optional
exponent.  The result is the exact rational value of the literal. -/
def pyFloat (s : String) : Option ℚ :=
  let cs0 := ((s.data.dropWhile isPyWS).reverse.dropWhile isPyWS).reverse
  let signed : Bool × List Char :=
    match cs0 with
    | '+' :: rest => (false, rest)
    | '-' :: rest => (true, rest)
    | rest => (false, rest)
  let neg := signed.1
  match takeDigits signed.2 with
  | (ip, r1) =>
    match r1 with
    | '.' :: r2 =>
      match takeDigits r2 with
      | (fp, r3) =>
        if ip.isEmpty && fp.isEmpty then none
        else
          let mant : ℚ := (digitsToNat ip : ℚ) + (digitsToNat fp : ℚ) / (10 : ℚ) ^ fp.length
          match takeExponent r3 with
          | some (e, []) => some (if neg then -(applyExp mant e) else applyExp mant e)
          | some (_, _ :: _) => none
          | none =>
            match r3 with
            | [] => some (if neg then -mant else mant)
            | _ => none
    | _ =>
      if ip.isEmpty then none
      else
        let mant : ℚ := (digitsToNat ip : ℚ)
        match takeExponent r1 with
        | some (e, []) => some (if neg then -(applyExp mant e) else applyExp mant e)
        | some (_, _ :: _) => none
        | none =>
          match r1 with
          | [] => some (if neg then -mant else mant)
          | _ => none

/-- Decimal digit character for a value below ten. -/
def digitChar (n : ℕ) : Char := Char.ofNat (48 + n)

/-- Digit characters of a natural number, most significant first, computed
with an explicit fuel argument (the fuel `n + 1` always suffices). -/
def natToStrAux : ℕ → ℕ → List Char
  | 0, _ => []
  | fuel + 1, n =>
    if n < 10 then [digitChar n]
    else natToStrAux fuel (n / 10) ++ [digitChar (n % 10)]

/-- Decimal rendering of a natural number, as Python `str(int)` for
non-negative values. -/
def natToStr (n : ℕ) : String := ⟨natToStrAux (n + 1) n⟩

/-- Python `str(int)` including the sign. -/
def intToStr (i : Int) : String :=
  if i < 0 then "-" ++ natToStr i.natAbs else natToStr i.natAbs

/-- Python `f"{i:02d}"`: zero-pad to width two.  Only reprs of length one
(the single digits 0–9) receive a pad character. -/
def intPad2 (i : Int) : String :=
  let s := intToStr i
  if s.length = 1 then "0" ++ s else s

/-- Python `f"{h:02d}"` on a natural number (the `datetime.hour` field). -/
def natPad2 (h : ℕ) : String :=
  let s := natToStr h
  if s.length = 1 then "0" ++ s else s

/-- Shortest finite decimal expansion of a non-negative rational within a
digit budget: the least `k ≤ 17` with `q * 10 ^ k` integral, if any. -/
def decExpLen : ℕ → ℚ → Option ℕ
  | 0, q => if (q * (10 : ℚ) ^ (0 : ℕ)).den = 1 then some 0 else none
  | k + 1, q =>
    match decExpLen k q with
    | some j => some j
    | none => if (q * (10 : ℚ) ^ (k + 1)).den = 1 then some (k + 1) else none

/-- Fixed-point rendering of a non-negative rational with exactly `k`
fractional digits (`k = 0` renders `x.0`, as Python float reprs do). -/
def renderFixed (q : ℚ) (k : ℕ) : String :=
  let scaled : ℕ := (q * (10 : ℚ) ^ k).num.toNat
  if k = 0 then natToStr scaled ++ ".0"
  else
    let ipart := scaled / 10 ^ k
    let fdigits := natToStrAux (10 ^ k) (scaled % 10 ^ k + 10 ^ k)
    natToStr ipart ++ "." ++ ⟨fdigits.drop 1⟩

/-- Python `str(float)` modelled on rationals: exact when the value has a
decimal expansion of at most 17 digits (every repr of a decoded JSON float
does); longer expansions get a placeholder that, like a real float repr of
that length, no date format accepts. -/
def floatRepr (q : ℚ) : String :=
  let a := if q < 0 then -q else q
  let body :=
    match decExpLen 17 a with
    | some k => renderFixed a k
    | none => "0.###"
  if q < 0 then "-" ++ body else body

/-- Python `str(v)` on decoded JSON values.  Container reprs are abbreviated
to bracketed placeholders: the repository only ever feeds them to the date
parser, which rejects real CPython container reprs and these alike (neither
starts with four digits). -/
def pyStr : JVal → String
  | .null => "None"
  | .bool b => if b then "True" else "False"
  | .int n => intToStr n
  | .float q => floatRepr q
  | .str s => s
  | .arr _ => "[...]"
  | .obj _ => "\x7b...\x7d"

/-- Insert an element into a descending-sorted list, after every element
whose key is greater than or equal to its own. -/
def stableInsert (gt : α → α → Bool) (x : α) : List α → List α
  | [] => [x]
  | y :: ys => if gt x y then x :: y :: ys else y :: stableInsert gt x ys

/-- Python `list.sort(key=..., reverse=True)`: the unique stable sort placing
larger keys first; `gt` is the strict comparison induced by the key. -/
def stableSortDesc (gt : α → α → Bool) (l : List α) : List α :=
  l.foldl (fun acc x => stableInsert gt x acc) []

/-- Python slice `s[:n]`. -/
def strTake (s : String) (n : ℕ) : String := ⟨s.data.take n⟩

/-- Python `s.ljust(w)`: pad on the right with spaces up to width `w`. -/
def ljust (s : String) (w : ℕ) : String := s ++ ⟨List.replicate (w - s.length) ' '⟩

/-- Python `s.replace(',', '.')` for the single-character pattern: replace
every comma by a dot. -/
def commaToDot (s : String) : String :=
  ⟨s.data.map (fun c => if c = ',' then '.' else c)⟩

/-- Round a non-negative rational to the nearest integer, ties to even, as
IEEE formatting of an exactly-representable value rounds. -/
def roundHalfEven (y : ℚ) : ℕ :=
  let n : ℕ := y.num.toNat / y.den
  let r : ℕ := y.num.toNat % y.den
  if 2 * r < y.den then n
  else if y.den < 2 * r then n + 1
  else if n % 2 = 0 then n else n + 1

/-- Python `f"{t:5.1f}"`: fixed-point with one fractional digit, right
aligned in a field of width five, space-filled, sign carried on negative
values (including values that round to `-0.0`). -/
def fmtTemp51 (t : ℚ) : String :=
  let mag := roundHalfEven ((if t < 0 then -t else t) * 10)
  let core := (if t < 0 then "-" else "") ++ natToStr (mag / 10) ++ "." ++ natToStr (mag % 10)
  if core.length < 5 then (⟨List.replicate (5 - core.length) ' '⟩ : String) ++ core else core

namespace V1

/-- Format `"%Y-%m-%dT%H:%M:%S"` (src/bialystok_temp.py line 24). -/
def fmtFullT : List Dir :=
  [.year, .lit '-', .mon, .lit '-', .day, .lit 'T', .hour, .lit ':', .minute, .lit ':', .second]

/-- Format `"%Y-%m-%d %H:%M:%S"` (line 25). -/
def fmtFullSp : List Dir :=
  [.year, .lit '-', .mon, .lit '-', .day, .lit ' ', .hour, .lit ':', .minute, .lit ':', .second]

/-- Format `"%Y-%m-%d %H:%M"` (line 26). -/
def fmtNoSec : List Dir :=
  [.year, .lit '-', .mon, .lit '-', .day, .lit ' ', .hour, .lit ':', .minute]

/-- Format `"%Y-%m-%d %H"` (line 27). -/
def fmtHour : List Dir :=
  [.year, .lit '-', .mon, .lit '-', .day, .lit ' ', .hour]

/-- Format `"%Y-%m-%d"` (line 28). -/
def fmtDate : List Dir :=
  [.year, .lit '-', .mon, .lit '-', .day]

/-- The `fmts` list of `try_parse_datetime` (src/bialystok_temp.py lines 23–29). -/
def fmts : List (List Dir) := [fmtFullT, fmtFullSp, fmtNoSec, fmtHour, fmtDate]

/-- The `for fmt in fmts` loop of `try_parse_datetime`: return the first
format that parses, `none` when all raise. -/
def tryFmts : List (List Dir) → String → Option Datetime
  | [], _ => none
  | f :: fs, s =>
    match strptime f s with
    | some d => some d
    | none => tryFmts fs s

/-- Embeds `try_parse_datetime` (src/bialystok_temp.py lines 20–38): empty
(falsy) input short-circuits to `None`; otherwise the explicit formats are
tried in order, then `datetime.fromisoformat`; every failure path returns
`None` rather than raising. -/
def try_parse_datetime (s : String) : Option Datetime :=
  if s = "" then none
  else
    match tryFmts fmts s with
    | some d => some d
    | none => fromisoformat s

/-- The generic timestamp key tuple `('timestamp', 'date', 'data')`
of `record_datetime` (src/bialystok_temp.py line 58). -/
def genericKeys : List String := ["timestamp", "date", "data"]

/-- The `for key in (...)` loop of `record_datetime` (lines 58–62): first
present, truthy generic field whose string form parses as a timestamp. -/
def genericScan : List String → JVal → Option Datetime
  | [], _ => none
  | k :: ks, rec =>
    match rec.get k with
    | some v =>
      if pyTruthy v then
        match try_parse_datetime (pyStr v) with
        | some d => some d
        | none => genericScan ks rec
      else genericScan ks rec
    | none => genericScan ks rec

/-- Embeds `record_datetime` (src/bialystok_temp.py lines 40–63): when
`data_pomiaru` is present, the hour field is resolved through the or-chain
`godzina_pomiaru or godzina or time`, numeric hours become `"HH:00:00"`,
and the combination is parsed, falling back to the date alone; if that
block yields nothing, the generic keys are scanned. -/
def record_datetime (rec : JVal) : Option Datetime :=
  let fromMain : Option Datetime :=
    if (rec.get "data_pomiaru").isSome then
      let date_part := (rec.get "data_pomiaru").getD JVal.null
      let tp0 := pyOr ((rec.get "godzina_pomiaru").getD JVal.null)
        (pyOr ((rec.get "godzina").getD JVal.null) ((rec.get "time").getD JVal.null))
      let time_part : JVal :=
        if isNumericJ tp0 then JVal.str (intPad2 (pyInt tp0) ++ ":00:00") else tp0
      let combined : Option Datetime :=
        if pyTruthy date_part && pyTruthy time_part then
          try_parse_datetime (pyStr date_part ++ " " ++ pyStr time_part)
        else none
      match combined with
      | some d => some d
      | none => try_parse_datetime (pyStr date_part)
    else none
  match fromMain with
  | some d => some d
  | none => genericScan genericKeys rec

/-- The candidate temperature keys of `extract_temp`
(src/bialystok_temp.py line 67). -/
def candidates : List String := ["temperatura", "temp", "temperature", "t"]

/-- The skip test `rec[k] not in (None, '')` negated: `None` and the empty
string are passed over without a coercion attempt. -/
def isNoneOrEmpty : JVal → Bool
  | .null => true
  | .str s => s = ""
  | _ => false

/-- The coercion body of `extract_temp` (lines 71–76): strings have commas
replaced by dots and go through `float(str)`; numbers and bools coerce by
value; `None` and containers raise, which the loop turns into a skip. -/
def coerceFloat : JVal → Option ℚ
  | .str s => pyFloat (commaToDot s)
  | .int n => some (n : ℚ)
  | .float q => some q
  | .bool b => some (if b then 1 else 0)
  | _ => none

/-- The `for k in candidates` loop of `extract_temp` (lines 68–76). -/
def extractLoop : List String → JVal → Option ℚ
  | [], _ => none
  | k :: ks, rec =>
    match rec.get k with
    | some v =>
      if isNoneOrEmpty v then extractLoop ks rec
      else
        match coerceFloat v with
        | some f => some f
        | none => extractLoop ks rec
    | none => extractLoop ks rec

/-- Embeds `extract_temp` (src/bialystok_temp.py lines 65–77). -/
def extract_temp (rec : JVal) : Option ℚ := extractLoop candidates rec

/-- The sort key comparison of `with_dt.sort(key=lambda x: (x[0] is None,
x[0]), reverse=True)` (line 101): `a` precedes `b` in the descending order
exactly when `a`'s key tuple is greater, so a record without a timestamp
(key `(True, None)`) compares greater than every dated record. -/
def keyGT (a b : Option Datetime × JVal) : Bool :=
  match a.1, b.1 with
  | none, some _ => true
  | none, none => false
  | some _, none => false
  | some d1, some d2 => Datetime.ltb d2 d1

/-- The record-list normalization of `fetch_latest_for_station`
(lines 86–91): a list is taken as is, a lone mapping is wrapped, anything
else yields the empty list. -/
def normalize_records : JVal → List JVal
  | .arr xs => xs
  | .obj fs => [JVal.obj fs]
  | _ => []

/-- The `with_dt` list after sorting (lines 97–101): each record paired with
its derived timestamp, stably sorted with the reversed key. -/
def sorted_with_dt (data : JVal) : List (Option Datetime × JVal) :=
  stableSortDesc keyGT ((normalize_records data).map (fun r => (record_datetime r, r)))

/-- The scan `for d, rec in with_dt` (lines 104–107): first record with an
extractable temperature. -/
def scanTemp : List (Option Datetime × JVal) → Option (ℚ × Option Datetime × JVal)
  | [] => none
  | (d, r) :: rest =>
    match extract_temp r with
    | some t => some (t, d, r)
    | none => scanTemp rest

/-- Embeds the pure core of `fetch_latest_for_station`
(src/bialystok_temp.py lines 79–110) from the decoded payload on: the HTTP
GET, status check and JSON decoding (lines 80–83) are the external fetch
collaborator, so the embedded function takes the decoded JSON value. -/
def fetch_latest_for_station (data : JVal) : Option ℚ × Option Datetime × Option JVal :=
  match normalize_records data with
  | [] => (none, none, none)
  | _ :: _ =>
    match scanTemp (sorted_with_dt data) with
    | some (t, d, r) => (some t, d, some r)
    | none =>
      match sorted_with_dt data with
      | (d, r) :: _ => (none, d, some r)
      | [] => (none, none, none)

end V1

namespace V2

/-- Format `"%Y-%m-%dT%H:%M:%S"` (src/bialystok_temp_Version2_1.py line 41). -/
def fmtFullT : List Dir :=
  [.year, .lit '-', .mon, .lit '-', .day, .lit 'T', .hour, .lit ':', .minute, .lit ':', .second]

/-- Format `"%Y-%m-%d %H:%M:%S"` (line 42). -/
def fmtFullSp : List Dir :=
  [.year, .lit '-', .mon, .lit '-', .day, .lit ' ', .hour, .lit ':', .minute, .lit ':', .second]

/-- Format `"%Y-%m-%d %H:%M"` (line 43). -/
def fmtNoSec : List Dir :=
  [.year, .lit '-', .mon, .lit '-', .day, .lit ' ', .hour, .lit ':', .minute]

/-- Format `"%Y-%m-%d %H"` (line 44). -/
def fmtHour : List Dir :=
  [.year, .lit '-', .mon, .lit '-', .day, .lit ' ', .hour]

/-- Format `"%Y-%m-%d"` (line 45). -/
def fmtDate : List Dir :=
  [.year, .lit '-', .mon, .lit '-', .day]

/-- The `fmts` list of `try_parse_datetime`
(src/bialystok_temp_Version2_1.py lines 40–46). -/
def fmts : List (List Dir) := [fmtFullT, fmtFullSp, fmtNoSec, fmtHour, fmtDate]

/-- The `for fmt in fmts` loop of `try_parse_datetime`: return the first
format that parses, `none` when all raise. -/
def tryFmts : List (List Dir) → String → Option Datetime
  | [], _ => none
  | f :: fs, s =>
    match strptime f s with
    | some d => some d
    | none => tryFmts fs s

/-- Embeds `try_parse_datetime` (src/bialystok_temp_Version2_1.py lines
37–55): empty (falsy) input short-circuits to `None`; otherwise the explicit
formats are tried in order, then `datetime.fromisoformat`; every failure
path returns `None` rather than raising. -/
def try_parse_datetime (s : String) : Option Datetime :=
  if s = "" then none
  else
    match tryFmts fmts s with
    | some d => some d
    | none => fromisoformat s

/-- The generic timestamp key tuple `('timestamp', 'date', 'data')`
of `record_datetime` (src/bialystok_temp_Version2_1.py line 75). -/
def genericKeys : List String := ["timestamp", "date", "data"]

/-- The `for key in (...)` loop of `record_datetime` (lines 75–79): first
present, truthy generic field whose string form parses as a timestamp. -/
def genericScan : List String → JVal → Option Datetime
  | [], _ => none
  | k :: ks, rec =>
    match rec.get k with
    | some v =>
      if pyTruthy v then
        match try_parse_datetime (pyStr v) with
        | some d => some d
        | none => genericScan ks rec
      else genericScan ks rec
    | none => genericScan ks rec

/-- Embeds `record_datetime` (src/bialystok_temp_Version2_1.py lines 57–80):
when `data_pomiaru` is present, the hour field is resolved through the
or-chain `godzina_pomiaru or godzina or time`, numeric hours become
`"HH:00:00"`, and the combination is parsed, falling back to the date
alone; if that block yields nothing, the generic keys are scanned. -/
def record_datetime (rec : JVal) : Option Datetime :=
  let fromMain : Option Datetime :=
    if (rec.get "data_pomiaru").isSome then
      let date_part := (rec.get "data_pomiaru").getD JVal.null
      let tp0 := pyOr ((rec.get "godzina_pomiaru").getD JVal.null)
        (pyOr ((rec.get "godzina").getD JVal.null) ((rec.get "time").getD JVal.null))
      let time_part : JVal :=
        if isNumericJ tp0 then JVal.str (intPad2 (pyInt tp0) ++ ":00:00") else tp0
      let combined : Option Datetime :=
        if pyTruthy date_part && pyTruthy time_part then
          try_parse_datetime (pyStr date_part ++ " " ++ pyStr time_part)
        else none
      match combined with
      | some d => some d
      | none => try_parse_datetime (pyStr date_part)
    else none
  match fromMain with
  | some d => some d
  | none => genericScan genericKeys rec

/-- The candidate temperature keys of `extract_temp`
(src/bialystok_temp_Version2_1.py line 84). -/
def candidates : List String := ["temperatura", "temp", "temperature", "t"]

/-- The skip test `rec[k] not in (None, '')` negated: `None` and the empty
string are passed over without a coercion attempt. -/
def isNoneOrEmpty : JVal → Bool
  | .null => true
  | .str s => s = ""
  | _ => false

/-- The coercion body of `extract_temp` (lines 88–93): strings have commas
replaced by dots and go through `float(str)`; numbers and bools coerce by
value; `None` and containers raise, which the loop turns into a skip. -/
def coerceFloat : JVal → Option ℚ
  | .str s => pyFloat (commaToDot s)
  | .int n => some (n : ℚ)
  | .float q => some q
  | .bool b => some (if b then 1 else 0)
  | _ => none

/-- The `for k in candidates` loop of `extract_temp` (lines 85–93). -/
def extractLoop : List String → JVal → Option ℚ
  | [], _ => none
  | k :: ks, rec =>
    match rec.get k with
    | some v =>
      if isNoneOrEmpty v then extractLoop ks rec
      else
        match coerceFloat v with
        | some f => some f
        | none => extractLoop ks rec
    | none => extractLoop ks rec

/-- Embeds `extract_temp` (src/bialystok_temp_Version2_1.py lines 82–94). -/
def extract_temp (rec : JVal) : Option ℚ := extractLoop candidates rec

/-- The sort key comparison of `with_dt.sort(key=lambda x: (x[0] is None,
x[0]), reverse=True)` (line 118): `a` precedes `b` in the descending order
exactly when `a`'s key tuple is greater, so a record without a timestamp
(key `(True, None)`) compares greater than every dated record. -/
def keyGT (a b : Option Datetime × JVal) : Bool :=
  match a.1, b.1 with
  | none, some _ => true
  | none, none => false
  | some _, none => false
  | some d1, some d2 => Datetime.ltb d2 d1

/-- The record-list normalization of `fetch_latest_for_station`
(lines 103–108): a list is taken as is, a lone mapping is wrapped, anything
else yields the empty list. -/
def normalize_records : JVal → List JVal
  | .arr xs => xs
  | .obj fs => [JVal.obj fs]
  | _ => []

/-- The `with_dt` list after sorting (lines 114–118): each record paired with
its derived timestamp, stably sorted with the reversed key. -/
def sorted_with_dt (data : JVal) : List (Option Datetime × JVal) :=
  stableSortDesc keyGT ((normalize_records data).map (fun r => (record_datetime r, r)))

/-- The scan `for d, rec in with_dt` (lines 121–124): first record with an
extractable temperature. -/
def scanTemp : List (Option Datetime × JVal) → Option (ℚ × Option Datetime × JVal)
  | [] => none
  | (d, r) :: rest =>
    match extract_temp r with
    | some t => some (t, d, r)
    | none => scanTemp rest

/-- Embeds the pure core of `fetch_latest_for_station`
(src/bialystok_temp_Version2_1.py lines 96–127) from the decoded payload on:
the HTTP GET, status check and JSON decoding (lines 97–100) are the external
fetch collaborator, so the embedded function takes the decoded JSON value. -/
def fetch_latest_for_station (data : JVal) : Option ℚ × Option Datetime × Option JVal :=
  match normalize_records data with
  | [] => (none, none, none)
  | _ :: _ =>
    match scanTemp (sorted_with_dt data) with
    | some (t, d, r) => (some t, d, some r)
    | none =>
      match sorted_with_dt data with
      | (d, r) :: _ => (none, d, some r)
      | [] => (none, none, none)

/-- Embeds `format_serial_string` (src/bialystok_temp_Version2_1.py lines
129–152): a five-wide one-decimal temperature field (all spaces when the
temperature is absent), two slashes, a two-digit hour (`"00"` when the
timestamp is absent), two colons, then the defensive length guard
`out[:11].ljust(11)`. -/
def format_serial_string (temp : Option ℚ) (dt : Option Datetime) : String :=
  let temp_field := match temp with | none => "     " | some t => fmtTemp51 t
  let hour_field := match dt with | none => "00" | some d => natPad2 d.hour
  let out := temp_field ++ "//" ++ hour_field ++ "::"
  if out.length ≠ 11 then ljust (strTake out 11) 11 else out

end V2

/-- A dated record: `data_pomiaru` 2024-05-01, `godzina_pomiaru` 12. -/
def recDated : JVal := .obj [("data_pomiaru", .str "2024-05-01"), ("godzina_pomiaru", .int 12)]

/-- A record with no timestamp-bearing field at all. -/
def recUndated : JVal := .obj [("stacja", .str "X")]

/-- The timestamp 2024-05-01 12:00:00. -/
def dtMay12 : Datetime := ⟨2024, 5, 1, 12, 0, 0⟩

/-- Claim C1: the sort is claimed to place every record lacking a parseable
timestamp after all timestamp-bearing records.  Evaluating the embedded sort
on a two-record payload whose second record has no timestamp shows the code
does the opposite: the reversed key `(x[0] is None, x[0])` makes the
timestampless record compare greatest, so it is placed first. -/
theorem claim_C1 :
    V2.sorted_with_dt (.arr [recDated, recUndated]) =
      [(none, recUndated), (some dtMay12, recDated)] := by
  with_unfolding_all rfl

/-- A timestampless record carrying a temperature. -/
def recUndatedTemp : JVal := .obj [("temperatura", .str "1.0")]

/-- A dated record carrying a temperature. -/
def recDatedTemp : JVal :=
  .obj [("data_pomiaru", .str "2024-05-01"), ("godzina_pomiaru", .int 12), ("temperatura", .str "2.0")]

/-- First record of the three-record scenario: earliest hour, no temperature. -/
def recEarlyNoTemp : JVal := .obj [("data_pomiaru", .str "2024-05-01"), ("godzina_pomiaru", .int 10)]

/-- Middle record of the three-record scenario: latest hour, valid temperature. -/
def recMidLatest : JVal :=
  .obj [("data_pomiaru", .str "2024-05-01"), ("godzina_pomiaru", .int 12), ("temperatura", .str "12,3")]

/-- Last record of the three-record scenario: middle hour, unparseable temperature. -/
def recLateBadTemp : JVal :=
  .obj [("data_pomiaru", .str "2024-05-01"), ("godzina_pomiaru", .int 11), ("temperatura", .str "abc")]

/-- Claim C2: the selector is claimed to return the first record in
most-recent-first order with an extractable temperature.  On a payload whose
first record has a temperature but no timestamp and whose second has both,
the code returns the timestampless record `(1.0, None)` instead of the most
recent one `(2.0, 2024-05-01 12:00)`, because the sort places the
timestampless record first.  The claim's own three-record scenario, where
every record is dated and only the middle one (latest, hour 12) has a valid
temperature, does return the middle record. -/
theorem claim_C2 :
    V2.fetch_latest_for_station (.arr [recUndatedTemp, recDatedTemp]) =
      (some 1, none, some recUndatedTemp) ∧
    V2.fetch_latest_for_station (.arr [recEarlyNoTemp, recMidLatest, recLateBadTemp]) =
      (some (123/10 : ℚ), some dtMay12, some recMidLatest) := by
  constructor
  · with_unfolding_all rfl
  · with_unfolding_all rfl

/-- Claim C3 (as stated, refuted): with temperature −5.4 and hour 7 the
encoder does not produce `"-05.4//07::"`; Python `f"{t:5.1f}"` pads with
spaces, not zeros. -/
theorem claim_C3_counterexample :
    V2.format_serial_string (some (-27/5 : ℚ)) (some ⟨2024, 1, 1, 7, 0, 0⟩) ≠ "-05.4//07::" := by
  have h : V2.format_serial_string (some (-27/5 : ℚ)) (some ⟨2024, 1, 1, 7, 0, 0⟩) =
      " -5.4//07::" := by with_unfolding_all rfl
  rw [h]
  decide

/-- Claim C3 (amended): for temperature −5.4 and any timestamp whose hour is
7 the encoder returns exactly `" -5.4//07::"` — the five-character
temperature field is right-aligned and space-padded with the sign included,
per the contract in spec section 4.3. -/
theorem claim_C3 (dt : Datetime) (h : dt.hour = 7) :
    V2.format_serial_string (some (-27/5 : ℚ)) (some dt) = " -5.4//07::" := by
  simp only [V2.format_serial_string, h]
  with_unfolding_all rfl

/-- Witness for claim C3 at a concrete timestamp. -/
theorem claim_C3_witness :
    (⟨2024, 1, 1, 7, 0, 0⟩ : Datetime).hour = 7 ∧
      V2.format_serial_string (some (-27/5 : ℚ)) (some ⟨2024, 1, 1, 7, 0, 0⟩) = " -5.4//07::" :=
  ⟨rfl, claim_C3 ⟨2024, 1, 1, 7, 0, 0⟩ rfl⟩

/-- Claim C8: absent temperature and absent timestamp encode to the exact
eleven-character string of five spaces, two slashes, `00`, two colons. -/
theorem claim_C8 : V2.format_serial_string none none = "     //00::" := by
  with_unfolding_all rfl

/-- The defensive guard `out[:11].ljust(11)` always yields eleven characters. -/
theorem ljust_strTake_length (s : String) : (ljust (strTake s 11) 11).length = 11 := by
  show (s.data.take 11 ++ List.replicate (11 - (s.data.take 11).length) ' ').length = 11
  simp only [List.length_append, List.length_take, List.length_replicate]
  omega

/-- Claim C7: for every temperature-or-absent and timestamp-or-absent pair
the encoder output has length exactly eleven, enforced by truncating and
right-padding whenever the assembled string deviates. -/
theorem claim_C7 (temp : Option ℚ) (dt : Option Datetime) :
    (V2.format_serial_string temp dt).length = 11 := by
  unfold V2.format_serial_string
  dsimp only
  split
  · exact ljust_strTake_length _
  · next h => exact not_not.mp h

/-- Specification-side description of one candidate attempt of the
temperature extraction: the value under the key, skipped when absent,
`None` or the empty string, otherwise coerced. -/
def coerceField (rec : JVal) (k : String) : Option ℚ :=
  match rec.get k with
  | some v => if V2.isNoneOrEmpty v then none else V2.coerceFloat v
  | none => none

/-- The candidate loop equals a first-success scan of the candidate list. -/
theorem extractLoop_eq_findSome (ks : List String) (rec : JVal) :
    V2.extractLoop ks rec = ks.findSome? (coerceField rec) := by
  induction ks with
  | nil => rfl
  | cons k ks ih =>
    simp only [V2.extractLoop, List.findSome?_cons, coerceField]
    cases hg : rec.get k with
    | none => exact ih
    | some v =>
      by_cases hne : V2.isNoneOrEmpty v
      · simp [hne, ih]
      · simp only [hne, if_false]
        cases hc : V2.coerceFloat v with
        | none => exact ih
        | some f => rfl

/-- Claim C5: the string `"12,3"` coerces to 12.3 through the comma
replacement; `"abc"` fails coercion and the scan falls through to the next
candidate field; and in general the extraction returns the first candidate
whose present, non-null, non-empty value coerces to a number, absent when
none does. -/
theorem claim_C5 :
    V2.extract_temp (JVal.obj [("temperatura", JVal.str "12,3")]) = some (123/10 : ℚ) ∧
    V2.extract_temp (JVal.obj [("temperatura", JVal.str "abc"), ("temp", JVal.str "7,5")]) =
      some (15/2 : ℚ) ∧
    ∀ rec : JVal, V2.extract_temp rec = V2.candidates.findSome? (coerceField rec) := by
  refine ⟨by with_unfolding_all rfl, by with_unfolding_all rfl, ?_⟩
  intro rec
  exact extractLoop_eq_findSome V2.candidates rec

/-- The null branch of `if not date_str` in `try_parse_datetime`: a `None`
argument is falsy and short-circuits exactly like the empty string. -/
def try_parse_datetime_opt : Option String → Option Datetime
  | none => none
  | some s => V2.try_parse_datetime s

/-- The format loop over a non-empty format list tries the head first. -/
theorem tryFmts_cons (f : List Dir) (fs : List (List Dir)) (s : String) :
    V2.tryFmts (f :: fs) s = (strptime f s).orElse (fun _ => V2.tryFmts fs s) := by
  cases h : strptime f s <;> simp [V2.tryFmts, h, Option.orElse]

/-- Claim C6: null or empty input is unparseable without attempting any
pattern, and otherwise the parser returns the first success among the five
explicit formats, in source order, falling back to the generic ISO-8601
parse; the result is always an `Option`, so no exception escapes. -/
theorem claim_C6 :
    try_parse_datetime_opt none = none ∧
    ∀ s : String, V2.try_parse_datetime s =
      if s = "" then none
      else
        (strptime V2.fmtFullT s).orElse (fun _ =>
          (strptime V2.fmtFullSp s).orElse (fun _ =>
            (strptime V2.fmtNoSec s).orElse (fun _ =>
              (strptime V2.fmtHour s).orElse (fun _ =>
                (strptime V2.fmtDate s).orElse (fun _ =>
                  fromisoformat s))))) := by
  refine ⟨rfl, ?_⟩
  intro s
  unfold V2.try_parse_datetime
  by_cases he : s = ""
  · simp [he]
  · simp only [he, if_false]
    simp only [V2.fmts, tryFmts_cons]
    cases h1 : strptime V2.fmtFullT s with
    | some d => simp [Option.orElse, h1]
    | none =>
      cases h2 : strptime V2.fmtFullSp s with
      | some d => simp [Option.orElse, h1, h2]
      | none =>
        cases h3 : strptime V2.fmtNoSec s with
        | some d => simp [Option.orElse, h1, h2, h3]
        | none =>
          cases h4 : strptime V2.fmtHour s with
          | some d => simp [Option.orElse, h1, h2, h3, h4]
          | none =>
            cases h5 : strptime V2.fmtDate s with
            | some d => simp [Option.orElse, V2.tryFmts, h1, h2, h3, h4, h5]
            | none => simp [Option.orElse, V2.tryFmts, h1, h2, h3, h4, h5]

/-- Whether a decoded JSON value is a mapping. -/
def JVal.isObj : JVal → Bool
  | .obj _ => true
  | _ => false

/-- Whether a decoded JSON value is a list. -/
def JVal.isArr : JVal → Bool
  | .arr _ => true
  | _ => false

/-- Claim C9: a lone mapping is wrapped into a one-element sequence,
non-mapping non-sequence input normalizes to the empty sequence, and an
empty sequence makes the selector return `(absent, absent, absent)` (the
embedding is total, so no error is raised on any of these paths). -/
theorem claim_C9 (v : JVal) :
    (v.isObj = true → V2.normalize_records v = [v]) ∧
    (v.isObj = false → v.isArr = false → V2.normalize_records v = []) ∧
    (V2.normalize_records v = [] → V2.fetch_latest_for_station v = (none, none, none)) := by
  refine ⟨?_, ?_, ?_⟩
  · intro h
    cases v <;> simp_all [JVal.isObj, V2.normalize_records]
  · intro h1 h2
    cases v <;> simp_all [JVal.isObj, JVal.isArr, V2.normalize_records]
  · intro h
    unfold V2.fetch_latest_for_station
    rw [h]

/-- Witness for claim C9 at the concrete non-mapping, non-sequence input
`"x"`. -/
theorem claim_C9_witness :
    V2.normalize_records (JVal.str "x") = [] ∧
    V2.fetch_latest_for_station (JVal.str "x") = (none, none, none) :=
  ⟨(claim_C9 (JVal.str "x")).2.1 rfl rfl,
    (claim_C9 (JVal.str "x")).2.2 ((claim_C9 (JVal.str "x")).2.1 rfl rfl)⟩

/-- A string with the `":00:00"` suffix appended is never empty. -/
theorem append_colons_ne (x : String) : x ++ ":00:00" ≠ "" := by
  intro h
  have hlen := congrArg String.length h
  rw [String.length_append] at hlen
  have h6 : (":00:00" : String).length = 6 := rfl
  have h0 : ("" : String).length = 0 := rfl
  rw [h6, h0] at hlen
  omega

/-- A dated record whose hour field is 7, used as the witness input. -/
def recHour7 : JVal := .obj [("data_pomiaru", .str "2024-05-01"), ("godzina_pomiaru", .int 7)]

/-- A record whose numeric measurement-hour is 0 (falsy) while a later
hour-like field `godzina` holds 5. -/
def recHourZero : JVal :=
  .obj [("data_pomiaru", .str "2024-05-01"), ("godzina_pomiaru", .int 0), ("godzina", .int 5)]

/-- Claim C4 (as stated, refuted): on a record with a parseable measurement
date and the numeric measurement-hour 0, the claimed derivation (zero-pad
the hour, suffix `":00:00"`, combine with the date) would give midnight,
and the combination parses; but the code treats the falsy hour 0 as missing
in the `or`-chain and uses the later `godzina` field instead, yielding
05:00:00. -/
theorem claim_C4_counterexample :
    V2.record_datetime recHourZero = some ⟨2024, 5, 1, 5, 0, 0⟩ ∧
    V2.try_parse_datetime "2024-05-01 00:00:00" = some ⟨2024, 5, 1, 0, 0, 0⟩ ∧
    (⟨2024, 5, 1, 5, 0, 0⟩ : Datetime) ≠ ⟨2024, 5, 1, 0, 0, 0⟩ := by
  refine ⟨by with_unfolding_all rfl, by with_unfolding_all rfl, by decide⟩

/-- Claim C4 (amended): for every record with a parseable measurement-date
string and a truthy numeric measurement-hour value (a zero hour is falsy
and treated as missing by the `or`-chain), the derived timestamp is the
parse of the date combined with the truncated, zero-padded hour suffixed
`":00:00"`, falling back to the parse of the date alone when the
combination fails; the generic timestamp keys are never consulted.  In
particular, measurement date `"2024-05-01"` with measurement hour 12
resolves to 2024-05-01 12:00:00. -/
theorem claim_C4 :
    (∀ (rec : JVal) (ds : String) (v : JVal) (d0 : Datetime),
      rec.get "data_pomiaru" = some (JVal.str ds) →
      V2.try_parse_datetime ds = some d0 →
      rec.get "godzina_pomiaru" = some v →
      isNumericJ v = true →
      pyTruthy v = true →
      V2.record_datetime rec =
        (V2.try_parse_datetime (ds ++ " " ++ (intPad2 (pyInt v) ++ ":00:00"))).orElse
          (fun _ => some d0)) ∧
    V2.record_datetime recDated = some dtMay12 := by
  constructor
  · intro rec ds v d0 h1 h2 h3 hnum htru
    have hds : ds ≠ "" := by
      intro he
      rw [he] at h2
      exact Option.noConfusion h2
    unfold V2.record_datetime
    rw [h1, h3]
    simp only [Option.isSome_some, if_true, Option.getD_some, pyOr, htru, hnum, if_pos]
    simp only [pyTruthy, pyStr, hds, ne_eq, not_false_eq_true, decide_True,
      append_colons_ne (intPad2 (pyInt v)), Bool.and_self, if_true]
    cases hc : V2.try_parse_datetime (ds ++ " " ++ (intPad2 (pyInt v) ++ ":00:00")) with
    | some d => simp [hc, Option.orElse]
    | none => simp [hc, h2, Option.orElse]
  · with_unfolding_all rfl

/-- Witness for the general part of claim C4 at the concrete record with
hour 7: the conclusion evaluates to the timestamp 2024-05-01 07:00:00. -/
theorem claim_C4_witness :
    V2.record_datetime recHour7 =
      (V2.try_parse_datetime ("2024-05-01" ++ " " ++ (intPad2 (pyInt (JVal.int 7)) ++ ":00:00"))).orElse
        (fun _ => some ⟨2024, 5, 1, 0, 0, 0⟩) :=
  claim_C4.1 recHour7 "2024-05-01" (JVal.int 7) ⟨2024, 5, 1, 0, 0, 0⟩
    rfl (by with_unfolding_all rfl) rfl rfl rfl

/-- The scan loops of the two files agree on every sorted list. -/
theorem scanTemp_eq (l : List (Option Datetime × JVal)) : V1.scanTemp l = V2.scanTemp l := by
  induction l with
  | nil => rfl
  | cons p rest ih =>
    obtain ⟨d, r⟩ := p
    simp only [V1.scanTemp, V2.scanTemp,
      show V1.extract_temp = V2.extract_temp from rfl, ih]

/-- The format loops of the two files agree on every format list. -/
theorem tryFmts_eq (fs : List (List Dir)) (s : String) : V1.tryFmts fs s = V2.tryFmts fs s := by
  induction fs with
  | nil => rfl
  | cons f rest ih =>
    cases h : strptime f s <;> simp [V1.tryFmts, V2.tryFmts, h, ih]

/-- The temperature-candidate loops of the two files agree on every key list. -/
theorem extractLoop_eq (ks : List String) (rec : JVal) :
    V1.extractLoop ks rec = V2.extractLoop ks rec := by
  induction ks with
  | nil => rfl
  | cons k rest ih =>
    simp only [V1.extractLoop, V2.extractLoop,
      show V1.isNoneOrEmpty = V2.isNoneOrEmpty from rfl,
      show V1.coerceFloat = V2.coerceFloat from rfl, ih]

/-- The generic-key loops of the two files agree on every key list. -/
theorem genericScan_eq (ks : List String) (rec : JVal) :
    V1.genericScan ks rec = V2.genericScan ks rec := by
  induction ks with
  | nil => rfl
  | cons k rest ih =>
    simp only [V1.genericScan, V2.genericScan,
      show V1.try_parse_datetime = V2.try_parse_datetime from rfl, ih]

/-- Claim C10: the datetime-parsing, timestamp-derivation,
temperature-extraction and record-selection logic of the two source files
are extensionally equal — the shared function bodies of the two files are
character-for-character identical, and the embedding makes that a theorem:
on every decoded JSON payload both selection pipelines return the same
`(temperature, timestamp, record)` triple. -/
theorem claim_C10 :
    (∀ s : String, V1.try_parse_datetime s = V2.try_parse_datetime s) ∧
    (∀ rec : JVal, V1.record_datetime rec = V2.record_datetime rec) ∧
    (∀ rec : JVal, V1.extract_temp rec = V2.extract_temp rec) ∧
    (∀ data : JVal, V1.fetch_latest_for_station data = V2.fetch_latest_for_station data) := by
  refine ⟨fun s => rfl, fun rec => rfl, fun rec => rfl, fun data => ?_⟩
  unfold V1.fetch_latest_for_station V2.fetch_latest_for_station
  rw [show V1.normalize_records = V2.normalize_records from rfl,
    show V1.sorted_with_dt = V2.sorted_with_dt from rfl,
    funext scanTemp_eq]
